import Mathlib

/-!
Shallow embedding of the mini-redis key-value store (Go source).
Time is modelled as an `Int` of nanoseconds; Go's `time.Time` zero value
(`IsZero`) is modelled as `none` in the optional `expiresAt` field.
All store operations take the current time `now` explicitly and return
the updated map together with their result.
-/

/-- One nanosecond count per second, matching Go `time.Second`. -/
def NSECS : Int := 1000000000

/-- Go struct `StoreData`: a value plus an expiration instant
(`none` models the zero `time.Time`, i.e. `IsZero`). -/
structure StoreData where
  value : String
  expiresAt : Option Int
deriving DecidableEq, Repr

/-- The Go `map[string]StoreData` inside `Store`, as a partial function. -/
def StoreMap : Type := String → Option StoreData

/-- The empty map, as built by `make(map[string]StoreData)`. -/
def StoreMap.empty : StoreMap := fun _ => none

/-- Go `s.data[key] = d`. -/
def StoreMap.update (s : StoreMap) (k : String) (d : StoreData) : StoreMap :=
  fun q => if q = k then some d else s q

/-- Go `delete(s.data, key)`. -/
def StoreMap.erase (s : StoreMap) (k : String) : StoreMap :=
  fun q => if q = k then none else s q

namespace Store

/-- Go `Store.Expire(key, seconds)`: absent key signals not found and
leaves the map alone; otherwise `expiresAt = now + seconds` (seconds
converted to nanoseconds) and the value is kept. -/
def Expire (s : StoreMap) (now : Int) (key : String) (seconds : Int) :
    StoreMap × String :=
  match s key with
  | none => (s, "ERR data not found")
  | some d =>
      (s.update key { d with expiresAt := some (now + seconds * NSECS) }, "OK")

/-- Go `Store.Set(key, value)`: inserts the entry with a zero
`expiresAt`, then calls `Expire(key, 5)`, and returns "OK". -/
def Set (s : StoreMap) (now : Int) (key value : String) :
    StoreMap × String :=
  let s1 := s.update key { value := value, expiresAt := none }
  ((Expire s1 now key 5).1, "OK")

/-- Go `Store.TTL(key)`: "-1" if absent; "Data never expires" if the
expiration instant is zero; if `expiresAt - now ≤ 0`, delete the key
and return "-1"; otherwise the remaining whole seconds
(`strconv.Itoa(int(diff.Seconds()))`, truncation). -/
def TTL (s : StoreMap) (now : Int) (key : String) : StoreMap × String :=
  match s key with
  | none => (s, "-1")
  | some d =>
      match d.expiresAt with
      | none => (s, "Data never expires")
      | some e =>
          let diff := e - now
          if diff ≤ 0 then (s.erase key, "-1")
          else (s, toString (diff / NSECS))

/-- Go `Store.Get(key)`: reads the entry; absent keys signal
"ERR data doesn't exist"; then consults `TTL` — a "-1" answer means the
entry expired (and `TTL` removed it); otherwise the stored value. -/
def Get (s : StoreMap) (now : Int) (key : String) : StoreMap × String :=
  match s key with
  | none => (s, "ERR data doesn't exist")
  | some d =>
      let t := TTL s now key
      if t.2 = "-1" then (t.1, "ERR data expired")
      else (t.1, d.value)

/-- Go `Store.Del(key)`: unconditional delete. -/
def Del (s : StoreMap) (key : String) : StoreMap :=
  s.erase key

/-- Go `Store.Exists(key)`: raw key presence, no expiry validation. -/
def Exists (s : StoreMap) (key : String) : Bool :=
  (s key).isSome

/-- Go `Store.cleanup()`: one sweep pass; deletes every entry whose
`expiresAt` is non-zero and with `now.After(expiresAt)`, i.e. strictly
before `now`. -/
def cleanup (s : StoreMap) (now : Int) : StoreMap :=
  fun k =>
    match s k with
    | none => none
    | some d =>
        match d.expiresAt with
        | none => some d
        | some e => if e < now then none else some d

/-- Go `Store.Execute(command, args)`: the dispatcher. -/
def Execute (s : StoreMap) (now : Int) (command : String)
    (args : List String) : StoreMap × String :=
  match command with
  | "PING" => (s, "PONG")
  | "SET" =>
      match args with
      | [k, v] => ((Set s now k v).1, "OK")
      | _ => (s, "ERR wrong number of arguments for 'set' command")
  | "GET" =>
      match args with
      | [k] =>
          let g := Get s now k
          if g.2 = "" then (g.1, "ERR property doesn't exist in store")
          else g
      | _ => (s, "ERR wrong number of arguments for 'get' command")
  | "DEL" =>
      match args with
      | [k] => (Del s k, "OK")
      | _ => (s, "ERR wrong number of arguments for 'del' command")
  | "EXISTS" =>
      match args with
      | [k] => (s, if Exists s k then "Yes" else "No")
      | _ => (s, "ERR wrong number of arguments for 'exists' command")
  | _ => (s, "ERR unknown command")

end Store

/-- A one-entry store: key "k", value "v", expiring at instant 5. -/
def oneStore : StoreMap := StoreMap.update StoreMap.empty "k" ⟨"v", some 5⟩

/-- A one-entry store whose entry never expires (zero `expiresAt`). -/
def foreverStore : StoreMap := StoreMap.update StoreMap.empty "k" ⟨"v", none⟩

/-- The store obtained by `Set`ting key "k" to the empty string at time 0. -/
def emptyValStore : StoreMap := (Store.Set StoreMap.empty 0 "k" "").1

section StringHelpers

theorem digitChar_ne_dash (d : Nat) : Nat.digitChar d ≠ '-' := by
  by_cases h : d < 16
  · interval_cases d <;> decide
  · have h0 : d ≠ 0 := by omega
    have h1 : d ≠ 1 := by omega
    have h2 : d ≠ 2 := by omega
    have h3 : d ≠ 3 := by omega
    have h4 : d ≠ 4 := by omega
    have h5 : d ≠ 5 := by omega
    have h6 : d ≠ 6 := by omega
    have h7 : d ≠ 7 := by omega
    have h8 : d ≠ 8 := by omega
    have h9 : d ≠ 9 := by omega
    have h10 : d ≠ 10 := by omega
    have h11 : d ≠ 11 := by omega
    have h12 : d ≠ 12 := by omega
    have h13 : d ≠ 13 := by omega
    have h14 : d ≠ 14 := by omega
    have h15 : d ≠ 15 := by omega
    simp only [Nat.digitChar, h0, h1, h2, h3, h4, h5, h6, h7, h8, h9, h10,
      h11, h12, h13, h14, h15, if_false, ite_false]
    decide

theorem dash_not_mem_toDigitsCore (b fuel n : Nat) (acc : List Char)
    (h : '-' ∉ acc) : '-' ∉ Nat.toDigitsCore b fuel n acc := by
  induction fuel generalizing n acc with
  | zero => simpa [Nat.toDigitsCore] using h
  | succ f ih =>
    simp only [Nat.toDigitsCore]
    split
    · intro hm
      rcases List.mem_cons.mp hm with h1 | h1
      · exact digitChar_ne_dash _ h1.symm
      · exact h h1
    · apply ih
      intro hm
      rcases List.mem_cons.mp hm with h1 | h1
      · exact digitChar_ne_dash _ h1.symm
      · exact h h1

theorem natRepr_ne_neg_one (m : Nat) : Nat.repr m ≠ "-1" := by
  intro h
  have hd : Nat.toDigits 10 m = ['-', '1'] := by
    have := congrArg String.data h
    simpa [Nat.repr, List.asString] using this
  have hmem : '-' ∈ Nat.toDigits 10 m := by rw [hd]; simp
  exact dash_not_mem_toDigitsCore 10 (m + 1) m [] (by simp) hmem

theorem toString_int_nonneg_ne_neg_one (n : Int) (h : 0 ≤ n) :
    toString n ≠ "-1" := by
  obtain ⟨m, rfl⟩ := Int.eq_ofNat_of_zero_le h
  exact natRepr_ne_neg_one m

end StringHelpers

section MapHelpers

theorem set_fst_at (s : StoreMap) (now : Int) (k v : String) :
    (Store.Set s now k v).1 k = some ⟨v, some (now + 5 * NSECS)⟩ := by
  simp [Store.Set, Store.Expire, StoreMap.update]

theorem set_fst_ne (s : StoreMap) (now : Int) (k v q : String) (hq : q ≠ k) :
    (Store.Set s now k v).1 q = s q := by
  simp [Store.Set, Store.Expire, StoreMap.update, hq]

end MapHelpers

/-- C5: `Set(k, v)` always succeeds with the confirmation "OK" and leaves
the store with an entry for `k` whose value is `v` and whose `expiresAt`
equals the moment of the call plus the default TTL of 5 seconds. -/
theorem set_establishes_default_ttl (s : StoreMap) (now : Int) (k v : String) :
    (Store.Set s now k v).2 = "OK" ∧
    (Store.Set s now k v).1 k = some ⟨v, some (now + 5 * NSECS)⟩ :=
  ⟨rfl, set_fst_at s now k v⟩

/-- C6: `Expire(k, seconds)` on an absent key signals NotFound and leaves
the whole store unchanged (it creates no key); on a present key it
returns confirmation and sets that entry's `expiresAt` to now + seconds,
keeping the entry's value and every other key unchanged. -/
theorem expire_absent_or_update (s : StoreMap) (now seconds : Int)
    (k : String) :
    (s k = none → Store.Expire s now k seconds = (s, "ERR data not found")) ∧
    (∀ d, s k = some d →
      (Store.Expire s now k seconds).2 = "OK" ∧
      (Store.Expire s now k seconds).1 k
        = some ⟨d.value, some (now + seconds * NSECS)⟩ ∧
      ∀ q, q ≠ k → (Store.Expire s now k seconds).1 q = s q) := by
  refine ⟨fun h => by simp [Store.Expire, h], fun d h => ?_⟩
  refine ⟨by simp [Store.Expire, h], by simp [Store.Expire, h, StoreMap.update], ?_⟩
  intro q hq
  simp [Store.Expire, h, StoreMap.update, hq]

theorem expire_absent_or_update_witness :
    Store.Expire StoreMap.empty 0 "k" 5 = (StoreMap.empty, "ERR data not found") ∧
    (Store.Expire oneStore 0 "k" 7).2 = "OK" ∧
    (Store.Expire oneStore 0 "k" 7).1 "k" = some ⟨"v", some (0 + 7 * NSECS)⟩ ∧
    (Store.Expire oneStore 0 "k" 7).1 "q" = oneStore "q" := by
  have h := (expire_absent_or_update oneStore 0 7 "k").2 ⟨"v", some 5⟩ (by decide)
  exact ⟨(expire_absent_or_update StoreMap.empty 0 5 "k").1 rfl,
    h.1, h.2.1, h.2.2 "q" (by decide)⟩

/-- C3: the four cases of `TTL(k)` — absent key: the NotFound sentinel
"-1", store untouched; zero `expiresAt`: the "never expires" message;
`expiresAt - now ≤ 0`: delete the entry and signal NotFound via "-1";
otherwise: the remaining duration truncated to whole seconds. -/
theorem ttl_four_cases (s : StoreMap) (now : Int) (k : String) :
    (s k = none → Store.TTL s now k = (s, "-1")) ∧
    (∀ v, s k = some ⟨v, none⟩ →
      Store.TTL s now k = (s, "Data never expires")) ∧
    (∀ v e, s k = some ⟨v, some e⟩ → e - now ≤ 0 →
      (Store.TTL s now k).2 = "-1" ∧ (Store.TTL s now k).1 k = none) ∧
    (∀ v e, s k = some ⟨v, some e⟩ → 0 < e - now →
      Store.TTL s now k = (s, toString ((e - now) / NSECS))) := by
  refine ⟨fun h => by simp [Store.TTL, h],
    fun v h => by simp [Store.TTL, h], ?_, ?_⟩
  · intro v e h hle
    exact ⟨by simp [Store.TTL, h, hle], by simp [Store.TTL, h, hle, StoreMap.erase]⟩
  · intro v e h hlt
    have hn : ¬ (e - now ≤ 0) := not_le.mpr hlt
    simp [Store.TTL, h, hn]

theorem ttl_four_cases_witness :
    Store.TTL StoreMap.empty 0 "k" = (StoreMap.empty, "-1") ∧
    Store.TTL foreverStore 0 "k" = (foreverStore, "Data never expires") ∧
    ((Store.TTL oneStore 9 "k").2 = "-1" ∧ (Store.TTL oneStore 9 "k").1 "k" = none) ∧
    Store.TTL oneStore 2 "k" = (oneStore, toString (((5 : Int) - 2) / NSECS)) :=
  ⟨(ttl_four_cases StoreMap.empty 0 "k").1 rfl,
    (ttl_four_cases foreverStore 0 "k").2.1 "v" (by decide),
    (ttl_four_cases oneStore 9 "k").2.2.1 "v" 5 (by decide) (by decide),
    (ttl_four_cases oneStore 2 "k").2.2.2 "v" 5 (by decide) (by decide)⟩

/-- C8: `Exists(k)` reports raw presence of `k` in the mapping, with no
expiry validation; the dispatcher renders it "Yes"/"No"; it answers
`true` even for a key that is logically expired (here `TTL` at time 10
reports "-1") but not yet swept or read. -/
theorem exists_raw_presence :
    (∀ (s : StoreMap) (k : String), Store.Exists s k = (s k).isSome) ∧
    (∀ (s : StoreMap) (now : Int) (k : String),
      (Store.Execute s now "EXISTS" [k]).2
        = if (s k).isSome then "Yes" else "No") ∧
    (Store.Exists oneStore "k" = true ∧ (Store.TTL oneStore 10 "k").2 = "-1") :=
  ⟨fun _ _ => rfl, fun _ _ _ => rfl, by decide, by decide⟩

/-- C9: `Get` and `TTL` mutate the store only in the expired case, and
then remove exactly the queried key: for an absent key, a key with zero
`expiresAt`, or a still-live key the whole mapping is unchanged; for a
present expired key the post-state removes that key and leaves every
other key's entry unchanged. -/
theorem get_ttl_frame (s : StoreMap) (now : Int) (k : String) :
    (s k = none → (Store.Get s now k).1 = s ∧ (Store.TTL s now k).1 = s) ∧
    (∀ v, s k = some ⟨v, none⟩ →
      (Store.Get s now k).1 = s ∧ (Store.TTL s now k).1 = s) ∧
    (∀ v e, s k = some ⟨v, some e⟩ → 0 < e - now →
      (Store.Get s now k).1 = s ∧ (Store.TTL s now k).1 = s) ∧
    (∀ v e, s k = some ⟨v, some e⟩ → e - now ≤ 0 →
      (Store.Get s now k).1 k = none ∧ (Store.TTL s now k).1 k = none ∧
      ∀ q, q ≠ k → (Store.Get s now k).1 q = s q ∧
        (Store.TTL s now k).1 q = s q) := by
  refine ⟨fun h => ⟨by simp [Store.Get, h], by simp [Store.TTL, h]⟩, ?_, ?_, ?_⟩
  · intro v h
    have ht : Store.TTL s now k = (s, "Data never expires") := by
      simp [Store.TTL, h]
    exact ⟨by simp [Store.Get, h, ht], by rw [ht]⟩
  · intro v e h hlt
    have hn : ¬ (e - now ≤ 0) := not_le.mpr hlt
    have ht : Store.TTL s now k = (s, toString ((e - now) / NSECS)) := by
      simp [Store.TTL, h, hn]
    refine ⟨?_, by rw [ht]⟩
    simp only [Store.Get, h, ht]
    split <;> rfl
  · intro v e h hle
    have ht : Store.TTL s now k = (s.erase k, "-1") := by
      simp [Store.TTL, h, hle]
    have hg : Store.Get s now k = (s.erase k, "ERR data expired") := by
      simp [Store.Get, h, ht]
    refine ⟨by rw [hg]; simp [StoreMap.erase], by rw [ht]; simp [StoreMap.erase], ?_⟩
    intro q hq
    rw [hg, ht]
    simp [StoreMap.erase, hq]

theorem get_ttl_frame_witness :
    ((Store.Get StoreMap.empty 3 "k").1 = StoreMap.empty ∧
      (Store.TTL StoreMap.empty 3 "k").1 = StoreMap.empty) ∧
    ((Store.Get foreverStore 3 "k").1 = foreverStore ∧
      (Store.TTL foreverStore 3 "k").1 = foreverStore) ∧
    ((Store.Get oneStore 2 "k").1 = oneStore ∧
      (Store.TTL oneStore 2 "k").1 = oneStore) ∧
    ((Store.Get oneStore 9 "k").1 "k" = none ∧
      (Store.TTL oneStore 9 "k").1 "k" = none ∧
      (Store.Get oneStore 9 "k").1 "q" = oneStore "q" ∧
      (Store.TTL oneStore 9 "k").1 "q" = oneStore "q") := by
  have h4 := (get_ttl_frame oneStore 9 "k").2.2.2 "v" 5 (by decide) (by decide)
  exact ⟨(get_ttl_frame StoreMap.empty 3 "k").1 rfl,
    (get_ttl_frame foreverStore 3 "k").2.1 "v" (by decide),
    (get_ttl_frame oneStore 2 "k").2.2.1 "v" 5 (by decide) (by decide),
    h4.1, h4.2.1, (h4.2.2 "q" (by decide)).1, (h4.2.2 "q" (by decide)).2⟩

/-- C1: for a key set via `Set` with the default TTL and not modified
afterwards, once now is at or past the entry's `expiresAt`, the first
`Get(k)` answers "ERR data expired" and removes the entry, and an
immediately following `Get(k)` answers "ERR data doesn't exist". -/
theorem get_expired_once (s : StoreMap) (t0 now : Int) (k v : String)
    (h : t0 + 5 * NSECS ≤ now) :
    (Store.Get (Store.Set s t0 k v).1 now k).2 = "ERR data expired" ∧
    (Store.Get (Store.Set s t0 k v).1 now k).1 k = none ∧
    (Store.Get (Store.Get (Store.Set s t0 k v).1 now k).1 now k).2
      = "ERR data doesn't exist" := by
  have hk := set_fst_at s t0 k v
  have hle : (t0 + 5 * NSECS) - now ≤ 0 := by omega
  have ht : Store.TTL (Store.Set s t0 k v).1 now k
      = (((Store.Set s t0 k v).1).erase k, "-1") := by
    simp [Store.TTL, hk, hle]
  have hg : Store.Get (Store.Set s t0 k v).1 now k
      = (((Store.Set s t0 k v).1).erase k, "ERR data expired") := by
    simp [Store.Get, hk, ht]
  refine ⟨by rw [hg], by rw [hg]; simp [StoreMap.erase], ?_⟩
  rw [hg]
  simp [Store.Get, StoreMap.erase]

theorem get_expired_once_witness :
    (Store.Get (Store.Set StoreMap.empty 0 "k" "v").1 (5 * NSECS) "k").2
      = "ERR data expired" ∧
    (Store.Get (Store.Set StoreMap.empty 0 "k" "v").1 (5 * NSECS) "k").1 "k"
      = none ∧
    (Store.Get (Store.Get (Store.Set StoreMap.empty 0 "k" "v").1
        (5 * NSECS) "k").1 (5 * NSECS) "k").2 = "ERR data doesn't exist" :=
  get_expired_once StoreMap.empty 0 (5 * NSECS) "k" "v" (by decide)

/-- C2: `Set(k, v)` at time t0 followed by `Get(k)` at time now returns
`v`, provided the elapsed time now - t0 is nonnegative and below the
default TTL of 5 seconds. -/
theorem get_after_set_within_ttl (s : StoreMap) (t0 now : Int) (k v : String)
    (h0 : t0 ≤ now) (h1 : now - t0 < 5 * NSECS) :
    (Store.Get (Store.Set s t0 k v).1 now k).2 = v := by
  have hk := set_fst_at s t0 k v
  have hlt : 0 < (t0 + 5 * NSECS) - now := by omega
  have hn : ¬ ((t0 + 5 * NSECS) - now ≤ 0) := not_le.mpr hlt
  have ht : Store.TTL (Store.Set s t0 k v).1 now k
      = ((Store.Set s t0 k v).1, toString (((t0 + 5 * NSECS) - now) / NSECS)) := by
    simp [Store.TTL, hk, hn]
  have hne : toString (((t0 + 5 * NSECS) - now) / NSECS) ≠ "-1" :=
    toString_int_nonneg_ne_neg_one _ (Int.ediv_nonneg (le_of_lt hlt) (by decide))
  simp [Store.Get, hk, ht, hne]

theorem get_after_set_within_ttl_witness :
    (Store.Get (Store.Set StoreMap.empty 0 "k" "v").1 1 "k").2 = "v" :=
  get_after_set_within_ttl StoreMap.empty 0 1 "k" "v" (by decide) (by decide)

/-- C4 counterexample: at now = 5 the single entry of `oneStore` has its
`expiresAt` (5) set and ≤ now, yet one `cleanup` pass keeps it, because
the code deletes only entries with `expiresAt` strictly before now. -/
theorem cleanup_boundary_cex :
    oneStore "k" = some ⟨"v", some 5⟩ ∧ (5 : Int) ≤ 5 ∧
    Store.cleanup oneStore 5 "k" = some ⟨"v", some 5⟩ := by decide

/-- C4 (amended): a single `cleanup` pass at time now deletes every entry
whose `expiresAt` is set and strictly less than now, and deletes no
entry whose `expiresAt` is unset or ≥ now. -/
theorem cleanup_sweeps_strictly_past (s : StoreMap) (now : Int) (k : String) :
    (∀ v e, s k = some ⟨v, some e⟩ → e < now → Store.cleanup s now k = none) ∧
    (∀ v e, s k = some ⟨v, some e⟩ → now ≤ e → Store.cleanup s now k = s k) ∧
    (∀ v, s k = some ⟨v, none⟩ → Store.cleanup s now k = s k) ∧
    (s k = none → Store.cleanup s now k = none) := by
  refine ⟨?_, ?_, ?_, fun h => by simp [Store.cleanup, h]⟩
  · intro v e h hlt
    simp [Store.cleanup, h, hlt]
  · intro v e h hle
    have hn : ¬ e < now := not_lt.mpr hle
    simp [Store.cleanup, h, hn]
  · intro v h
    simp [Store.cleanup, h]

theorem cleanup_sweeps_strictly_past_witness :
    Store.cleanup oneStore 6 "k" = none ∧
    Store.cleanup oneStore 4 "k" = oneStore "k" ∧
    Store.cleanup foreverStore 6 "k" = foreverStore "k" ∧
    Store.cleanup StoreMap.empty 6 "k" = none :=
  ⟨(cleanup_sweeps_strictly_past oneStore 6 "k").1 "v" 5 (by decide) (by decide),
    (cleanup_sweeps_strictly_past oneStore 4 "k").2.1 "v" 5 (by decide) (by decide),
    (cleanup_sweeps_strictly_past foreverStore 6 "k").2.2.1 "v" (by decide),
    (cleanup_sweeps_strictly_past StoreMap.empty 6 "k").2.2.2 rfl⟩

/-- C7 counterexample: two divergences from the claimed dispatch table.
On a live key holding the empty string, the dispatcher's GET answers
"ERR property doesn't exist in store" — neither the stored value nor any
of the NotFound/Expired/arity error strings. And PING with a wrong
argument count (one argument instead of zero) answers "PONG", a success
response, not an ArgumentCountError. -/
theorem execute_get_empty_value_cex :
    (Store.Get emptyValStore 0 "k").2 = "" ∧
    (Store.Execute emptyValStore 0 "GET" ["k"]).2
      = "ERR property doesn't exist in store" ∧
    (Store.Execute emptyValStore 0 "GET" ["k"]).2 ≠ "" ∧
    (Store.Execute emptyValStore 0 "GET" ["k"]).2 ≠ "ERR data doesn't exist" ∧
    (Store.Execute emptyValStore 0 "GET" ["k"]).2 ≠ "ERR data expired" ∧
    (["x"] : List String).length ≠ 0 ∧
    (Store.Execute StoreMap.empty 0 "PING" ["x"]).2 = "PONG" := by
  decide

/-- C7 (amended): full dispatch contract of `Execute` — a verb outside
the five known ones yields "ERR unknown command"; PING yields "PONG"
regardless of argument count (the code has no arity check for it); each
of SET/GET/DEL/EXISTS with the wrong argument count yields the arity
error naming that command; otherwise SET k v yields "OK"; DEL k yields
"OK"; EXISTS k yields "Yes"/"No" by raw presence; GET k yields `Get`'s
answer when that answer is nonempty and "ERR property doesn't exist in
store" when `Get` retrieved the empty string; no other response is
possible. -/
theorem execute_dispatch (s : StoreMap) (now : Int) (c : String)
    (args : List String) (k v : String) :
    (c ∉ (["PING", "SET", "GET", "DEL", "EXISTS"] : List String) →
      Store.Execute s now c args = (s, "ERR unknown command")) ∧
    (Store.Execute s now "PING" args = (s, "PONG")) ∧
    (args.length ≠ 2 →
      Store.Execute s now "SET" args
        = (s, "ERR wrong number of arguments for 'set' command")) ∧
    (Store.Execute s now "SET" [k, v] = ((Store.Set s now k v).1, "OK")) ∧
    (args.length ≠ 1 →
      Store.Execute s now "GET" args
        = (s, "ERR wrong number of arguments for 'get' command")) ∧
    ((Store.Get s now k).2 ≠ "" →
      Store.Execute s now "GET" [k] = Store.Get s now k) ∧
    ((Store.Get s now k).2 = "" →
      Store.Execute s now "GET" [k]
        = ((Store.Get s now k).1, "ERR property doesn't exist in store")) ∧
    (args.length ≠ 1 →
      Store.Execute s now "DEL" args
        = (s, "ERR wrong number of arguments for 'del' command")) ∧
    (Store.Execute s now "DEL" [k] = (Store.Del s k, "OK")) ∧
    (args.length ≠ 1 →
      Store.Execute s now "EXISTS" args
        = (s, "ERR wrong number of arguments for 'exists' command")) ∧
    (Store.Execute s now "EXISTS" [k]
      = (s, if (s k).isSome then "Yes" else "No")) := by
  refine ⟨?_, rfl, ?_, rfl, ?_, ?_, ?_, ?_, rfl, ?_, rfl⟩
  · intro hc
    simp only [List.mem_cons, List.not_mem_nil, or_false, not_or] at hc
    obtain ⟨h1, h2, h3, h4, h5⟩ := hc
    rw [Store.Execute.eq_def]
    split <;> simp_all
  · intro ha
    cases args with
    | nil => rfl
    | cons a t =>
      cases t with
      | nil => rfl
      | cons b t2 =>
        cases t2 with
        | nil => exact absurd rfl ha
        | cons e t3 => rfl
  · intro ha
    cases args with
    | nil => rfl
    | cons a t =>
      cases t with
      | nil => exact absurd rfl ha
      | cons b t2 => rfl
  · intro hne
    simp [Store.Execute, hne]
  · intro he
    simp [Store.Execute, he]
  · intro ha
    cases args with
    | nil => rfl
    | cons a t =>
      cases t with
      | nil => exact absurd rfl ha
      | cons b t2 => rfl
  · intro ha
    cases args with
    | nil => rfl
    | cons a t =>
      cases t with
      | nil => exact absurd rfl ha
      | cons b t2 => rfl

theorem execute_dispatch_witness :
    Store.Execute StoreMap.empty 0 "BOGUS" [] = (StoreMap.empty, "ERR unknown command") ∧
    Store.Execute StoreMap.empty 0 "PING" [] = (StoreMap.empty, "PONG") ∧
    Store.Execute StoreMap.empty 0 "SET" []
      = (StoreMap.empty, "ERR wrong number of arguments for 'set' command") ∧
    Store.Execute StoreMap.empty 0 "SET" ["k", "v"]
      = ((Store.Set StoreMap.empty 0 "k" "v").1, "OK") ∧
    Store.Execute StoreMap.empty 0 "GET" []
      = (StoreMap.empty, "ERR wrong number of arguments for 'get' command") ∧
    Store.Execute oneStore 2 "GET" ["k"] = Store.Get oneStore 2 "k" ∧
    Store.Execute emptyValStore 0 "GET" ["k"]
      = ((Store.Get emptyValStore 0 "k").1, "ERR property doesn't exist in store") ∧
    Store.Execute StoreMap.empty 0 "DEL" []
      = (StoreMap.empty, "ERR wrong number of arguments for 'del' command") ∧
    Store.Execute StoreMap.empty 0 "DEL" ["k"]
      = (Store.Del StoreMap.empty "k", "OK") ∧
    Store.Execute StoreMap.empty 0 "EXISTS" []
      = (StoreMap.empty, "ERR wrong number of arguments for 'exists' command") ∧
    Store.Execute oneStore 0 "EXISTS" ["k"]
      = (oneStore, if (oneStore "k").isSome then "Yes" else "No") := by
  refine ⟨(execute_dispatch StoreMap.empty 0 "BOGUS" [] "k" "v").1 (by decide),
    (execute_dispatch StoreMap.empty 0 "PING" [] "k" "v").2.1,
    (execute_dispatch StoreMap.empty 0 "SET" [] "k" "v").2.2.1 (by decide),
    (execute_dispatch StoreMap.empty 0 "SET" [] "k" "v").2.2.2.1,
    (execute_dispatch StoreMap.empty 0 "GET" [] "k" "v").2.2.2.2.1 (by decide),
    (execute_dispatch oneStore 2 "GET" [] "k" "v").2.2.2.2.2.1 (by decide),
    (execute_dispatch emptyValStore 0 "GET" [] "k" "v").2.2.2.2.2.2.1 (by decide),
    (execute_dispatch StoreMap.empty 0 "DEL" [] "k" "v").2.2.2.2.2.2.2.1 (by decide),
    (execute_dispatch StoreMap.empty 0 "DEL" [] "k" "v").2.2.2.2.2.2.2.2.1,
    (execute_dispatch StoreMap.empty 0 "EXISTS" [] "k" "v").2.2.2.2.2.2.2.2.2.1 (by decide),
    (execute_dispatch oneStore 0 "EXISTS" [] "k" "v").2.2.2.2.2.2.2.2.2.2⟩

/-- C10: divergence between store and dispatcher on the empty-string
value — `Execute("SET", [k, ""])` answers "OK" and `Store.Get(k)` within
the TTL returns "", yet `Execute("GET", [k])` on that live key answers
"ERR property doesn't exist in store" instead of the stored value. -/
theorem execute_empty_value_divergence :
    (Store.Execute StoreMap.empty 0 "SET" ["k", ""]).2 = "OK" ∧
    (Store.Get (Store.Execute StoreMap.empty 0 "SET" ["k", ""]).1 0 "k").2
      = "" ∧
    (Store.Execute (Store.Execute StoreMap.empty 0 "SET" ["k", ""]).1
        0 "GET" ["k"]).2 = "ERR property doesn't exist in store" := by
  decide
